import Mathlib

/-!
Verification of the QR-code adapter of the Blaze-Savour theme.

The adapter source (`generateQRCode`, `getTypeNumberForData`,
`errorCorrectionToLevel`, `drawQRCodeOnCanvas`) is embedded below as
executable Lean definitions.  The legacy 1,700-line encoder
`qr-code-generator.js` that the adapter wraps is not part of the provided
sources; the adapter is therefore parameterised over that engine
(`LegacyEngine`), and the few facts that depend on the engine's internals
(standard capacity tables, segment bit costs, the mask-selection loop) are
modelled from the specification and marked as such in their doc comments.
-/

set_option maxRecDepth 20000

namespace QRAdapter

/-- JavaScript's WhiteSpace and LineTerminator code points, the set removed by
`String.prototype.trim` (used by the adapter's `!data.trim()` check). -/
def jsWhitespaceCodes : List Nat :=
  [0x09, 0x0A, 0x0B, 0x0C, 0x0D, 0x20, 0xA0, 0x1680,
   0x2000, 0x2001, 0x2002, 0x2003, 0x2004, 0x2005, 0x2006, 0x2007,
   0x2008, 0x2009, 0x200A, 0x2028, 0x2029, 0x202F, 0x205F, 0x3000, 0xFEFF]

/-- Whether a character is JavaScript whitespace. -/
def isJsWhitespace (c : Char) : Bool :=
  jsWhitespaceCodes.contains c.toNat

/-- `String.prototype.trim` on the character list of a string: remove leading
and trailing JavaScript whitespace. -/
def jsTrimList (l : List Char) : List Char :=
  ((l.dropWhile isJsWhitespace).reverse.dropWhile isJsWhitespace).reverse

/-- `haystack.includes(needle)` on character lists: the needle occurs as a
contiguous substring (empty needle always matches, as in JavaScript). -/
def includesAux (needle : List Char) : List Char → Bool
  | [] => needle.isEmpty
  | c :: t => needle.isPrefixOf (c :: t) || includesAux needle t

/-- `hay.includes(needle)` of JavaScript strings. -/
def stringIncludes (hay needle : String) : Bool :=
  includesAux needle.toList hay.toList

/-- The options object read by `generateQRCode`.  The adapter reads only
`size` and `errorCorrection`; a `forcedVersion` property (documented in the
system spec) is carried here because JavaScript callers can pass it, but the
adapter never reads it. -/
structure QROptions where
  size : Option Nat := none
  errorCorrection : Option String := none
  forcedVersion : Option Nat := none

/-- The symbol object produced by the legacy library, as used by the adapter:
`getModuleCount()` and `isDark(row, col)`. -/
structure QRSymbol where
  moduleCount : Nat
  isDark : Nat → Nat → Bool

/-- The legacy `qr-code-generator.js` engine, abstracted: the adapter's call
sequence `new QRCode(); setTypeNumber(t); setErrorCorrectLevel(l);
addData(data); make()` either yields a symbol or throws with some message. -/
structure LegacyEngine where
  make : Nat → Nat → String → Except String QRSymbol

/-- One `ctx.fillRect` call recorded with its fill colour. -/
structure FillRect where
  color : String
  x : Nat
  y : Nat
  w : Nat
  h : Nat
deriving DecidableEq

/-- The canvas returned by `generateQRCode`: its dimensions and the list of
fill operations performed on its 2d context. -/
structure Canvas where
  width : Nat
  height : Nat
  ops : List FillRect
deriving DecidableEq

/-- Outcome of a JavaScript function call: a returned value or a thrown
`Error` carrying a message. -/
inductive JSOutcome where
  | ret (canvas : Canvas)
  | thrown (msg : String)
deriving DecidableEq

/-- Source: `getTypeNumberForData` (adapter).  Maps the payload's character
count through fixed thresholds to a type number; lengths above 370 all map
to 10 ("Safe default for medium data"). -/
def getTypeNumberForData (data : String) : Nat :=
  if data.length ≤ 41 then 1
  else if data.length ≤ 77 then 2
  else if data.length ≤ 127 then 3
  else if data.length ≤ 187 then 4
  else if data.length ≤ 255 then 5
  else if data.length ≤ 322 then 6
  else if data.length ≤ 370 then 7
  else 10

/-- Source: `errorCorrectionToLevel` (adapter): L → 1, M → 0, Q → 3, H → 2,
anything else → 0 (the `?? 0` fallback). -/
def errorCorrectionToLevel (level : String) : Nat :=
  if level = "L" then 1
  else if level = "M" then 0
  else if level = "Q" then 3
  else if level = "H" then 2
  else 0

/-- Source: the `validLevels` array of `generateQRCode`, in source order. -/
def validLevels : List String := ["L", "M", "H", "Q"]

/-- Source: the message of the empty-data `Error`. -/
def emptyDataMsg : String := "QR code data must be non-empty string"

/-- Source: the message of the over-length `Error`. -/
def dataTooLongMsg : String := "QR code data too long (max 2953 characters)"

/-- Source: the message of the invalid-level `Error`
(template literal over `validLevels.join(', ')`). -/
def invalidLevelMsg : String :=
  "Invalid error correction level. Expected one of: " ++
    String.intercalate ", " validLevels

/-- Source: `const size = options.size || 300` — JavaScript `||` takes the
default when `size` is absent or `0` (falsy). -/
def resolvedSize (o : QROptions) : Nat :=
  match o.size with
  | none => 300
  | some n => if n = 0 then 300 else n

/-- Source: `const errorCorrection = options.errorCorrection || 'M'` — the
default applies when the option is absent or the empty string (falsy). -/
def resolvedLevel (o : QROptions) : String :=
  match o.errorCorrection with
  | none => "M"
  | some s => if s = "" then "M" else s

/-- The validation prefix of `generateQRCode` (the three checks performed
before the `try` block, in source order): empty/whitespace data, length
above 2953, unknown error-correction level.  Returns the thrown message,
or `none` when control reaches the legacy calls. -/
def validateQRCodeInput (data : String) (o : QROptions) : Option String :=
  if (jsTrimList data.toList).isEmpty then some emptyDataMsg
  else if 2953 < data.length then some dataTooLongMsg
  else if validLevels.contains (resolvedLevel o) = false then some invalidLevelMsg
  else none

/-- Source: `drawQRCodeOnCanvas(ctx, qr, size)`: one white background
rectangle, then one black `moduleSize × moduleSize` rectangle per dark
module, scanning rows then columns (`moduleSize = Math.floor(size /
moduleCount)`). -/
def drawQRCodeOnCanvas (qr : QRSymbol) (size : Nat) : List FillRect :=
  let moduleSize := size / qr.moduleCount
  ⟨"#ffffff", 0, 0, size, size⟩ ::
    (List.range qr.moduleCount).flatMap (fun row =>
      (List.range qr.moduleCount).filterMap (fun col =>
        if qr.isDark row col then
          some ⟨"#000000", col * moduleSize, row * moduleSize, moduleSize, moduleSize⟩
        else none))

/-- Source: the message thrown when `canvas.getContext('2d')` yields no
context (`if (!ctx) { throw new Error('Could not get canvas context'); }`). -/
def canvasCtxMsg : String := "Could not get canvas context"

/-- Source: the `catch` block of `generateQRCode`: an error whose message
contains `'QR code'` is rethrown as-is, every other error is wrapped. -/
def catchWrap (e : String) : String :=
  if stringIncludes e "QR code" then e
  else "Failed to generate QR code: " ++ e

/-- Source: `generateQRCode(data, options)` (adapter), over an abstract
legacy engine.  The pre-`try` validation throws are unwrapped.  Inside
`try`, the legacy calls may throw; then the canvas is created with
`width = height = size` and its 2d context is requested —
`ctxAvailable` says whether the environment provides one; when it does not,
the adapter throws `'Could not get canvas context'`.  Every error thrown
inside `try` passes through the `catch` block (`catchWrap`); on success the
returned canvas carries the draw calls. -/
def generateQRCode (engine : LegacyEngine) (ctxAvailable : Bool)
    (data : String) (o : QROptions) : JSOutcome :=
  match validateQRCodeInput data o with
  | some m => .thrown m
  | none =>
    match engine.make (getTypeNumberForData data)
        (errorCorrectionToLevel (resolvedLevel o)) data with
    | .error e => .thrown (catchWrap e)
    | .ok qr =>
        if ctxAvailable then
          .ret ⟨resolvedSize o, resolvedSize o, drawQRCodeOnCanvas qr (resolvedSize o)⟩
        else .thrown (catchWrap canvasCtxMsg)

/-- The type number the adapter passes to `setTypeNumber`, as a function of
the requested level and the payload: the call site
`qr.setTypeNumber(getTypeNumberForData(data))` does not consult the level,
which is installed separately by `setErrorCorrectLevel`. -/
def selectedVersionAt (_level : String) (data : String) : Nat :=
  getTypeNumberForData data

/-- A payload of `n` letters `a` (byte-mode data). -/
def aStr (n : Nat) : String := String.mk (List.replicate n 'a')

/-- A payload of `n` digits `0` (numeric-mode data). -/
def zeroStr (n : Nat) : String := String.mk (List.replicate n '0')

/-- An engine that always succeeds with a minimal one-module symbol. -/
def okEngine : LegacyEngine := ⟨fun _ _ _ => .ok ⟨1, fun _ _ => false⟩⟩

/-- An engine that always throws. -/
def failEngine : LegacyEngine := ⟨fun _ _ _ => .error "boom"⟩

/-- Modelled from the spec: the version-40 byte-mode character capacities per
error-correction level, from the standard per-version/level capacity table
(spec §3: "a standard per-version/level table … must be reproduced exactly");
the legacy `qr-code-generator.js` holding the table is not under the provided
sources.  Note the level-L value 2953 is the adapter's own length constant. -/
def version40ByteCapacity (level : String) : Nat :=
  if level = "L" then 2953
  else if level = "M" then 2331
  else if level = "Q" then 1663
  else if level = "H" then 1273
  else 0

/-- Modelled from the spec: the numeric-mode length-field bit width per
version tier (versions 1–9, 10–26, 27–40 use increasing widths; spec §4.1),
with the standard widths 10/12/14. -/
def numericLengthFieldBits (v : Nat) : Nat :=
  if v ≤ 9 then 10 else if v ≤ 26 then 12 else 14

/-- Modelled from the spec (§4.2): bits of a numeric segment of `n` digits at
version `v`: 4-bit mode indicator, length field, digits packed 3-per-10-bits
with 2 leftover digits → 7 bits and 1 leftover → 4 bits. -/
def numericSegmentBits (n v : Nat) : Nat :=
  4 + numericLengthFieldBits v + 10 * (n / 3) +
    (if n % 3 = 2 then 7 else if n % 3 = 1 then 4 else 0)

/-- Modelled from the spec: data-codeword counts at level L for versions 1–8
from the standard block table (spec §3); `0` outside the tabulated range. -/
def dataCodewordsAtL (v : Nat) : Nat :=
  if v = 1 then 19 else if v = 2 then 34 else if v = 3 then 55
  else if v = 4 then 80 else if v = 5 then 108 else if v = 6 then 136
  else if v = 7 then 156 else if v = 8 then 194 else 0

/-- Modelled from the spec (§4.1): a numeric payload of `n` digits fits
version `v` at level L when its segment bits plus the 4-bit terminator do not
exceed the version's data-codeword capacity in bits. -/
def numericFitsAtL (n v : Nat) : Prop :=
  numericSegmentBits n v + 4 ≤ 8 * dataCodewordsAtL v

instance (n v : Nat) : Decidable (numericFitsAtL n v) := by
  unfold numericFitsAtL; infer_instance

/-- Modelled from the spec (§3): side length of a version-`v` symbol,
`4·v + 17` modules. -/
def sideLength (v : Nat) : Nat := 4 * v + 17

/-- Modelled from the spec (§4.5): the mask-selection loop of the legacy
library — try mask indices 0–7, keep the first index whose penalty strictly
improves on the best so far (so ties are broken by the lowest index), starting
from index 0. -/
def bestMask (p : Nat → Nat) : Nat :=
  (List.range 8).foldl (fun best i => if p i < p best then i else best) 0

/-- The mask-selection loop truncated to the first `k` candidate indices. -/
def bestMaskUpTo (p : Nat → Nat) (k : Nat) : Nat :=
  (List.range k).foldl (fun best i => if p i < p best then i else best) 0

/-- The canvas produced from the minimal one-module symbol at default size. -/
def whiteCanvas300 : Canvas := ⟨300, 300, [⟨"#ffffff", 0, 0, 300, 300⟩]⟩

/-- A concrete penalty assignment used to exercise the mask selector. -/
def samplePenalty (i : Nat) : Nat := if i = 2 then 0 else 5

/- ------------------------------------------------------------------ -/
/- Helper lemmas                                                       -/
/- ------------------------------------------------------------------ -/

lemma dropWhile_replicate_of_not {p : Char → Bool} {c : Char} (h : p c = false) :
    ∀ n : Nat, (List.replicate n c).dropWhile p = List.replicate n c := by
  intro n
  cases n with
  | zero => rfl
  | succ m => simp [List.replicate_succ, List.dropWhile_cons, h]

lemma jsTrimList_replicate {c : Char} (h : isJsWhitespace c = false) (n : Nat) :
    jsTrimList (List.replicate n c) = List.replicate n c := by
  unfold jsTrimList
  rw [dropWhile_replicate_of_not h, List.reverse_replicate,
    dropWhile_replicate_of_not h, List.reverse_replicate]

lemma jsTrimList_eq_nil {l : List Char} (h : ∀ c ∈ l, isJsWhitespace c = true) :
    jsTrimList l = [] := by
  unfold jsTrimList
  rw [List.dropWhile_eq_nil_iff.mpr h]
  rfl

lemma aStr_toList (n : Nat) : (aStr n).toList = List.replicate n 'a' := rfl

lemma aStr_length (n : Nat) : (aStr n).length = n := by
  show (List.replicate n 'a').length = n
  exact List.length_replicate n 'a'

lemma zeroStr_toList (n : Nat) : (zeroStr n).toList = List.replicate n '0' := rfl

lemma zeroStr_length (n : Nat) : (zeroStr n).length = n := by
  show (List.replicate n '0').length = n
  exact List.length_replicate n '0'

lemma aStr_trim_not_empty (n : Nat) :
    (jsTrimList (aStr (n + 1)).toList).isEmpty = false := by
  rw [aStr_toList, jsTrimList_replicate (by decide)]
  simp [List.replicate_succ]

lemma validateQRCodeInput_cases (data : String) (o : QROptions) :
    validateQRCodeInput data o = none ∨
    validateQRCodeInput data o = some emptyDataMsg ∨
    validateQRCodeInput data o = some dataTooLongMsg ∨
    validateQRCodeInput data o = some invalidLevelMsg := by
  unfold validateQRCodeInput
  split_ifs <;> simp

lemma getTypeNumberForData_le_ten (s : String) : getTypeNumberForData s ≤ 10 := by
  unfold getTypeNumberForData
  split_ifs <;> omega

set_option maxHeartbeats 1000000 in
lemma getTypeNumberForData_mono {s t : String} (h : s.length ≤ t.length) :
    getTypeNumberForData s ≤ getTypeNumberForData t := by
  unfold getTypeNumberForData
  split_ifs <;> omega

lemma bestMaskUpTo_succ (p : Nat → Nat) (n : Nat) :
    bestMaskUpTo p (n + 1) =
      if p n < p (bestMaskUpTo p n) then n else bestMaskUpTo p n := by
  unfold bestMaskUpTo
  rw [List.range_succ, List.foldl_append]
  rfl

lemma bestMaskUpTo_spec (p : Nat → Nat) (k : Nat) :
    (bestMaskUpTo p k = 0 ∨ bestMaskUpTo p k < k) ∧
    (∀ i, i < k → p (bestMaskUpTo p k) ≤ p i) ∧
    (∀ j, j < bestMaskUpTo p k → p (bestMaskUpTo p k) < p j) := by
  induction k with
  | zero =>
      refine ⟨Or.inl rfl, ?_, ?_⟩
      · intro i hi; exact absurd hi (Nat.not_lt_zero i)
      · intro j hj
        have : bestMaskUpTo p 0 = 0 := rfl
        rw [this] at hj
        exact absurd hj (Nat.not_lt_zero j)
  | succ n ih =>
      obtain ⟨hb, hmin, hstrict⟩ := ih
      rw [bestMaskUpTo_succ]
      by_cases h : p n < p (bestMaskUpTo p n)
      · rw [if_pos h]
        refine ⟨Or.inr (Nat.lt_succ_self n), ?_, ?_⟩
        · intro i hi
          rcases Nat.lt_succ_iff_lt_or_eq.mp hi with hi' | hi'
          · exact Nat.le_of_lt (Nat.lt_of_lt_of_le h (hmin i hi'))
          · rw [hi']
        · intro j hj
          exact Nat.lt_of_lt_of_le h (hmin j hj)
      · rw [if_neg h]
        refine ⟨?_, ?_, hstrict⟩
        · rcases hb with hb | hb
          · exact Or.inl hb
          · exact Or.inr (Nat.lt_succ_of_lt hb)
        · intro i hi
          rcases Nat.lt_succ_iff_lt_or_eq.mp hi with hi' | hi'
          · exact hmin i hi'
          · rw [hi']; exact Nat.le_of_not_lt h

lemma bestMask_eq_upTo (p : Nat → Nat) : bestMask p = bestMaskUpTo p 8 := rfl

/- ------------------------------------------------------------------ -/
/- Claim theorems                                                      -/
/- ------------------------------------------------------------------ -/

/-- C1 (amended): `generateQRCode` rejects a payload with the
`'QR code data too long'` error exactly when its character count exceeds the
fixed ceiling 2953 (the version-40 level-L byte capacity), for every
requested correction level alike; the ceiling does not depend on the level,
so payloads of at most 2953 characters pass the length check even when they
exceed version-40 capacity at stricter levels, and an over-limit payload is
rejected outright rather than truncated. -/
theorem c1_fixed_length_ceiling (data : String) (o : QROptions)
    (htrim : (jsTrimList data.toList).isEmpty = false) :
    validateQRCodeInput data o = some dataTooLongMsg ↔ 2953 < data.length := by
  have hne : invalidLevelMsg ≠ dataTooLongMsg := by decide
  unfold validateQRCodeInput
  rw [htrim]
  simp only [Bool.false_eq_true, if_false]
  split_ifs with h1 h2
  · simp [h1]
  · simp [h1, Option.some.injEq, hne]
  · simp [h1]

/-- Witness for C1: a 2954-character payload is rejected as too long at
level H. -/
theorem c1_fixed_length_ceiling_witness :
    validateQRCodeInput (aStr 2954) ⟨none, some "H", none⟩ = some dataTooLongMsg :=
  (c1_fixed_length_ceiling (aStr 2954) ⟨none, some "H", none⟩
    (aStr_trim_not_empty 2953)).mpr (by rw [aStr_length]; omega)

/-- Counterexample for C1 as stated: a 1274-character byte payload exceeds
the version-40 capacity at level H (1273), yet the adapter's validation
raises no error at all — the too-long check is level-independent. -/
theorem c1_counterexample :
    validateQRCodeInput (aStr 1274) ⟨none, some "H", none⟩ = none ∧
    version40ByteCapacity "H" < (aStr 1274).length := by
  constructor
  · unfold validateQRCodeInput
    rw [aStr_trim_not_empty 1273]
    rw [show (aStr 1274).length = 1274 from aStr_length 1274]
    simp [resolvedLevel, validLevels]
  · rw [aStr_length]; decide

/-- C2 (amended): the adapter's version selection does not search versions
1..40 against required bits: `getTypeNumberForData` depends only on the
payload's character count, never exceeds 10, and assigns version 10 to every
payload longer than 370 characters regardless of content or requested
correction level. -/
theorem c2_version_selection_shape :
    (∀ s t : String, s.length = t.length →
      getTypeNumberForData s = getTypeNumberForData t) ∧
    (∀ s : String, getTypeNumberForData s ≤ 10) ∧
    (∀ s : String, 370 < s.length → getTypeNumberForData s = 10) := by
  refine ⟨?_, getTypeNumberForData_le_ten, ?_⟩
  · intro s t h
    unfold getTypeNumberForData
    rw [h]
  · intro s h
    unfold getTypeNumberForData
    split_ifs <;> omega

/-- Witness for C2: two distinct equal-length payloads share a type number,
and a 372-digit payload is assigned version 10. -/
theorem c2_version_selection_shape_witness :
    getTypeNumberForData "ab" = getTypeNumberForData "cd" ∧
    getTypeNumberForData (zeroStr 372) = 10 :=
  ⟨c2_version_selection_shape.1 "ab" "cd" (by decide),
   c2_version_selection_shape.2.2 (zeroStr 372) (by rw [zeroStr_length]; omega)⟩

/-- Counterexample for C2 as stated: 372 digits need version 8 at level L
(they do not fit version 7 but fit version 8), yet `getTypeNumberForData`
assigns version 10 — larger than the smallest sufficient version. -/
theorem c2_counterexample :
    getTypeNumberForData (zeroStr 372) = 10 ∧
    ¬ numericFitsAtL 372 7 ∧ numericFitsAtL 372 8 ∧ (8 : Nat) < 10 := by
  refine ⟨?_, by decide, by decide, by decide⟩
  rw [show getTypeNumberForData (zeroStr 372) =
      getTypeNumberForData (zeroStr 372) from rfl]
  unfold getTypeNumberForData
  rw [zeroStr_length]
  decide

/-- C3 (confirmed): the numeric string "01234567" is assigned version 1, its
numeric-mode segment occupies exactly 41 bits before padding (4-bit mode
indicator, 10-bit length field, 8 digits packed 3-per-10-bits with a 7-bit
leftover pair), and a version-1 symbol is 21×21 modules. -/
theorem c3_numeric_scenario :
    getTypeNumberForData "01234567" = 1 ∧
    numericSegmentBits (String.length "01234567") 1 = 41 ∧
    sideLength (getTypeNumberForData "01234567") = 21 := by
  decide

/-- C4 (amended): the version the adapter passes to the legacy encoder is
monotone in payload length, and is identical across correction levels for
the same payload — the level is never consulted by version selection. -/
theorem c4_monotone_level_blind :
    (∀ (l : String) (s t : String), s.length ≤ t.length →
      selectedVersionAt l s ≤ selectedVersionAt l t) ∧
    (∀ (l1 l2 : String) (s : String),
      selectedVersionAt l1 s = selectedVersionAt l2 s) := by
  constructor
  · intro l s t h
    exact getTypeNumberForData_mono h
  · intro l1 l2 s
    rfl

/-- Witness for C4: a shorter payload gets a version no larger than a longer
one, and levels L and H select the same version for the same payload. -/
theorem c4_monotone_level_blind_witness :
    selectedVersionAt "M" "a" ≤ selectedVersionAt "M" "ab" ∧
    selectedVersionAt "L" "x" = selectedVersionAt "H" "x" :=
  ⟨c4_monotone_level_blind.1 "M" "a" "ab" (by decide),
   c4_monotone_level_blind.2 "L" "H" "x"⟩

/-- Counterexample for C4 as stated: levels M and H (H strictly higher)
select the same version 1 for the payload "A", so a strictly higher level
does select an equal version. -/
theorem c4_counterexample :
    selectedVersionAt "H" "A" = 1 ∧ selectedVersionAt "M" "A" = 1 := by
  decide

/-- C5 (amended): every failure of `generateQRCode` is a thrown `Error`
whose message identifies the failure — the empty-data message, the too-long
message, the invalid-level message, a legacy failure passed through the
`catch` block (rethrown as-is when its message contains `'QR code'`,
wrapped with `'Failed to generate QR code: '` otherwise), or the
canvas-context failure likewise wrapped — and no partial output exists: a
returned canvas is exactly the fully drawn canvas for the symbol the legacy
engine produced, at the resolved size, in an environment that provided a 2d
context. -/
theorem c5_exception_channel :
    (∀ (engine : LegacyEngine) (ctxAvailable : Bool) (data : String)
        (o : QROptions) (m : String),
      generateQRCode engine ctxAvailable data o = .thrown m →
      m = emptyDataMsg ∨ m = dataTooLongMsg ∨ m = invalidLevelMsg ∨
      (∃ e, engine.make (getTypeNumberForData data)
            (errorCorrectionToLevel (resolvedLevel o)) data = .error e ∧
          m = catchWrap e) ∨
      (∃ qr, engine.make (getTypeNumberForData data)
            (errorCorrectionToLevel (resolvedLevel o)) data = .ok qr ∧
          ctxAvailable = false ∧ m = catchWrap canvasCtxMsg)) ∧
    (∀ (engine : LegacyEngine) (ctxAvailable : Bool) (data : String)
        (o : QROptions) (c : Canvas),
      generateQRCode engine ctxAvailable data o = .ret c →
      validateQRCodeInput data o = none ∧ ctxAvailable = true ∧
      ∃ qr, engine.make (getTypeNumberForData data)
            (errorCorrectionToLevel (resolvedLevel o)) data = .ok qr ∧
          c = ⟨resolvedSize o, resolvedSize o, drawQRCodeOnCanvas qr (resolvedSize o)⟩) := by
  constructor
  · intro engine ctxAvailable data o m h
    unfold generateQRCode at h
    cases hv : validateQRCodeInput data o with
    | none =>
        rw [hv] at h
        cases hm : engine.make (getTypeNumberForData data)
            (errorCorrectionToLevel (resolvedLevel o)) data with
        | error e =>
            rw [hm] at h
            simp only [JSOutcome.thrown.injEq] at h
            exact Or.inr (Or.inr (Or.inr (Or.inl ⟨e, rfl, h.symm⟩)))
        | ok qr =>
            rw [hm] at h
            cases hctx : ctxAvailable with
            | true =>
                rw [hctx] at h
                exact absurd h (by simp)
            | false =>
                rw [hctx] at h
                simp only [Bool.false_eq_true, if_false,
                  JSOutcome.thrown.injEq] at h
                exact Or.inr (Or.inr (Or.inr (Or.inr ⟨qr, rfl, rfl, h.symm⟩)))
    | some mv =>
        rw [hv] at h
        simp only [JSOutcome.thrown.injEq] at h
        subst h
        rcases validateQRCodeInput_cases data o with h0 | h0 | h0 | h0 <;>
          rw [hv] at h0
        · exact absurd h0 (by simp)
        · exact Or.inl (Option.some.inj h0)
        · exact Or.inr (Or.inl (Option.some.inj h0))
        · exact Or.inr (Or.inr (Or.inl (Option.some.inj h0)))
  · intro engine ctxAvailable data o c h
    unfold generateQRCode at h
    cases hv : validateQRCodeInput data o with
    | none =>
        rw [hv] at h
        cases hm : engine.make (getTypeNumberForData data)
            (errorCorrectionToLevel (resolvedLevel o)) data with
        | error e =>
            rw [hm] at h
            exact absurd h (by simp)
        | ok qr =>
            rw [hm] at h
            cases hctx : ctxAvailable with
            | true =>
                rw [hctx] at h
                simp only [if_true, JSOutcome.ret.injEq] at h
                exact ⟨rfl, rfl, qr, rfl, h.symm⟩
            | false =>
                rw [hctx] at h
                exact absurd h (by simp)
    | some mv =>
        rw [hv] at h
        exact absurd h (by simp)

/-- Witness for C5: in an environment with no 2d context, a within-capacity
payload surfaces the wrapped canvas-context message, which falls under the
amended taxonomy's last disjunct. -/
theorem c5_exception_channel_witness :
    "Failed to generate QR code: Could not get canvas context" = emptyDataMsg ∨
    "Failed to generate QR code: Could not get canvas context" = dataTooLongMsg ∨
    "Failed to generate QR code: Could not get canvas context" = invalidLevelMsg ∨
    (∃ e, okEngine.make (getTypeNumberForData "A")
          (errorCorrectionToLevel (resolvedLevel ⟨none, none, none⟩)) "A" =
            .error e ∧
        "Failed to generate QR code: Could not get canvas context" =
          catchWrap e) ∨
    (∃ qr, okEngine.make (getTypeNumberForData "A")
          (errorCorrectionToLevel (resolvedLevel ⟨none, none, none⟩)) "A" =
            .ok qr ∧
        (false : Bool) = false ∧
        "Failed to generate QR code: Could not get canvas context" =
          catchWrap canvasCtxMsg) :=
  c5_exception_channel.1 okEngine false "A" ⟨none, none, none⟩
    "Failed to generate QR code: Could not get canvas context" (by decide)

/-- Counterexample for C5 as stated: the empty payload makes
`generateQRCode` throw — the failure is not returned as a result value. -/
theorem c5_counterexample :
    generateQRCode okEngine true "" ⟨none, none, none⟩ =
      JSOutcome.thrown emptyDataMsg := by
  decide

/-- C6 (amended): a resolved errorCorrection level outside {L, M, H, Q}
makes `generateQRCode` throw the invalid-level `Error` before any legacy
encoding call (the outcome is the same for every engine), and no
invalid-level error is ever raised for a level inside the set; the options'
`forcedVersion` is never validated because the adapter does not read it. -/
theorem c6_level_validation :
    (∀ (engine : LegacyEngine) (ctxAvailable : Bool) (data : String)
        (o : QROptions),
      (jsTrimList data.toList).isEmpty = false →
      data.length ≤ 2953 →
      validLevels.contains (resolvedLevel o) = false →
      generateQRCode engine ctxAvailable data o = .thrown invalidLevelMsg) ∧
    (∀ (data : String) (o : QROptions),
      validLevels.contains (resolvedLevel o) = true →
      validateQRCodeInput data o ≠ some invalidLevelMsg) := by
  constructor
  · intro engine ctxAvailable data o htrim hlen hbad
    have hv : validateQRCodeInput data o = some invalidLevelMsg := by
      unfold validateQRCodeInput
      rw [htrim]
      simp only [Bool.false_eq_true, if_false]
      rw [if_neg (by omega : ¬ 2953 < data.length), if_pos hbad]
    unfold generateQRCode
    rw [hv]
  · intro data o hgood h
    have h1 : emptyDataMsg ≠ invalidLevelMsg := by decide
    have h2 : dataTooLongMsg ≠ invalidLevelMsg := by decide
    unfold validateQRCodeInput at h
    split_ifs at h with hc1 hc2 hc3
    · exact h1 (Option.some.inj h)
    · exact h2 (Option.some.inj h)
    · rw [hgood] at hc3
      exact absurd hc3 (by decide)

/-- Witness for C6: an unknown level "X" is rejected with the invalid-level
message, while the valid level "M" never triggers it. -/
theorem c6_level_validation_witness :
    generateQRCode okEngine true "A" ⟨none, some "X", none⟩ =
      JSOutcome.thrown invalidLevelMsg ∧
    validateQRCodeInput "A" ⟨none, some "M", none⟩ ≠ some invalidLevelMsg :=
  ⟨c6_level_validation.1 okEngine true "A" ⟨none, some "X", none⟩
      (by decide) (by decide) (by decide),
   c6_level_validation.2 "A" ⟨none, some "M", none⟩ (by decide)⟩

/-- Counterexample for C6 as stated: a forced version 99, far outside
[1, 40], produces no `InvalidOption` error — the adapter ignores the
property and encodes successfully. -/
theorem c6_counterexample :
    (40 : Nat) < 99 ∧
    generateQRCode okEngine true "A" ⟨none, none, some 99⟩ =
      JSOutcome.ret whiteCanvas300 :=
  ⟨by decide, by decide⟩

/-- C7 (confirmed): omitting the errorCorrection option is the same as
requesting level M — `generateQRCode` yields identical outcomes on every
payload, size, engine, context environment, and forcedVersion value. -/
theorem c7_default_level_M (engine : LegacyEngine) (ctxAvailable : Bool)
    (data : String) (sz fv : Option Nat) :
    generateQRCode engine ctxAvailable data ⟨sz, none, fv⟩ =
      generateQRCode engine ctxAvailable data ⟨sz, some "M", fv⟩ := rfl

/-- C8 (confirmed, modelled): the mask-selection loop is deterministic with
ties broken by the lowest index: for every penalty assignment the selected
mask is one of 0–7, attains the minimum penalty, and every strictly smaller
index has strictly larger penalty. -/
theorem c8_mask_determinism (p : Nat → Nat) :
    bestMask p < 8 ∧
    (∀ i, i < 8 → p (bestMask p) ≤ p i) ∧
    (∀ j, j < bestMask p → p (bestMask p) < p j) := by
  obtain ⟨hb, hmin, hstrict⟩ := bestMaskUpTo_spec p 8
  rw [bestMask_eq_upTo]
  refine ⟨?_, hmin, hstrict⟩
  rcases hb with hb | hb
  · rw [hb]; decide
  · exact hb

/-- Witness for C8: on a concrete penalty assignment with its minimum at
index 2, the loop picks an index below 8 with minimal penalty, beating
earlier indices strictly. -/
theorem c8_mask_determinism_witness :
    bestMask samplePenalty < 8 ∧
    samplePenalty (bestMask samplePenalty) ≤ samplePenalty 5 ∧
    samplePenalty (bestMask samplePenalty) < samplePenalty 1 :=
  ⟨(c8_mask_determinism samplePenalty).1,
   (c8_mask_determinism samplePenalty).2.1 5 (by decide),
   (c8_mask_determinism samplePenalty).2.2 1 (by decide)⟩

/-- C9 (confirmed): every payload consisting only of whitespace characters
(including the empty payload) is rejected with the non-empty-string `Error`
for every engine — the legacy encoder is never consulted — and that
rejection is distinct from the too-long rejection. -/
theorem c9_whitespace_only_rejected (engine : LegacyEngine)
    (ctxAvailable : Bool) (data : String) (o : QROptions)
    (h : ∀ c ∈ data.toList, isJsWhitespace c = true) :
    generateQRCode engine ctxAvailable data o = .thrown emptyDataMsg ∧
    emptyDataMsg ≠ dataTooLongMsg := by
  refine ⟨?_, by decide⟩
  have ht : jsTrimList data.toList = [] := jsTrimList_eq_nil h
  have hv : validateQRCodeInput data o = some emptyDataMsg := by
    unfold validateQRCodeInput
    rw [ht]
    rfl
  unfold generateQRCode
  rw [hv]

/-- Witness for C9: a two-space payload is rejected as empty. -/
theorem c9_whitespace_only_rejected_witness :
    generateQRCode okEngine true "  " ⟨none, none, none⟩ =
      .thrown emptyDataMsg ∧
    emptyDataMsg ≠ dataTooLongMsg :=
  c9_whitespace_only_rejected okEngine true "  " ⟨none, none, none⟩ (by decide)

/-- C10 (confirmed): a canvas returned by `generateQRCode` is square with
side 300 when the size option is absent or zero (falsy), and side exactly
`n` when the option is a nonzero `n`. -/
theorem c10_canvas_size (engine : LegacyEngine) (ctxAvailable : Bool)
    (data : String) (o : QROptions) (c : Canvas)
    (h : generateQRCode engine ctxAvailable data o = .ret c) :
    ((o.size = none ∨ o.size = some 0) → c.width = 300 ∧ c.height = 300) ∧
    (∀ n, 0 < n → o.size = some n → c.width = n ∧ c.height = n) := by
  have hw : c.width = resolvedSize o ∧ c.height = resolvedSize o := by
    unfold generateQRCode at h
    cases hv : validateQRCodeInput data o with
    | none =>
        rw [hv] at h
        cases hm : engine.make (getTypeNumberForData data)
            (errorCorrectionToLevel (resolvedLevel o)) data with
        | error e => rw [hm] at h; exact absurd h (by simp)
        | ok qr =>
            rw [hm] at h
            cases hctx : ctxAvailable with
            | false => rw [hctx] at h; exact absurd h (by simp)
            | true =>
                rw [hctx] at h
                simp only [if_true, JSOutcome.ret.injEq] at h
                rw [← h]
                exact ⟨rfl, rfl⟩
    | some mv => rw [hv] at h; exact absurd h (by simp)
  constructor
  · intro hs
    rcases hs with hs | hs <;>
      simp [hw.1, hw.2, resolvedSize, hs]
  · intro n hn hs
    have hn' : ¬ n = 0 := by omega
    simp [hw.1, hw.2, resolvedSize, hs, hn']

/-- Witness for C10: with the size option absent, the returned canvas is
300 × 300. -/
theorem c10_canvas_size_witness :
    whiteCanvas300.width = 300 ∧ whiteCanvas300.height = 300 :=
  (c10_canvas_size okEngine true "A" ⟨none, none, none⟩ whiteCanvas300
    (by decide)).1 (Or.inl rfl)

end QRAdapter
